import Mathlib

set_option maxRecDepth 100000

/-!
Verification of the SemaphoreGate firmware (src/SemaphoreGate/SemaphoreGate.ino).

The firmware is a single polling loop over global state: five debounced
digital inputs (two sensors, three buttons), a visitor counter, a buzzer,
two indicator lights and an LCD display.  We embed the loop shallowly:
the global variables become a `GateState` record, every C function becomes
a Lean function on `GateState`, `unsigned long` arithmetic is `Nat`
arithmetic taken modulo `2 ^ 32`, and calls to the handler functions and
to the display sink are recorded in an event log so that "this handler was
called this tick" is observable.  Pin writes (`digitalWrite`) are recorded
as boolean pin fields with last-write-wins semantics, `true` = HIGH.
-/

namespace SemaphoreGate

/-- The modulus of the Arduino `unsigned long` type (32-bit). -/
def U32 : Nat := 2 ^ 32

/-- Unsigned 32-bit subtraction `a - b`, as computed by the C code on
`unsigned long` operands: wraps around modulo `2 ^ 32`. -/
def usub (a b : Nat) : Nat := (a % U32 + U32 - b % U32) % U32

/-- `SENSOR_DELAY_MS` from the source: minimum separation between accepted
sensor events. -/
def SENSOR_DELAY_MS : Nat := 1000

/-- `BUZZER_DURATION_MS` from the source: how long the buzzer sounds. -/
def BUZZER_DURATION_MS : Nat := 500

/-- `BUTTON_REPEAT_DELAY_MS` from the source: auto-repeat delay of the
up/down buttons. -/
def BUTTON_REPEAT_DELAY_MS : Nat := 500

/-- `BUTTON_LONG_DELAY_MS` from the source: long-hold threshold of the
reset button. -/
def BUTTON_LONG_DELAY_MS : Nat := 5000

/-- `BUTTON_ENTRANCE_MIN_MS` from the source: duration of the forced-red
window after an entry. -/
def BUTTON_ENTRANCE_MIN_MS : Nat := 2000

/-- The five raw digital inputs sampled at the top of `loop()`, already
converted to "asserted" booleans (the C code reads active-low pins and
compares with `LOW`). -/
structure Inputs where
  buttonReset : Bool
  buttonUp : Bool
  buttonDown : Bool
  sensorIn : Bool
  sensorOut : Bool
  deriving Repr, DecidableEq

/-- Observable events of one tick: which handler functions and display-sink
operations were invoked.  These correspond one-to-one to calls of the named
C functions. -/
inductive Event where
  | enter
  | leave
  | reset
  | upFire
  | downFire
  | setText
  | initDisp
  deriving Repr, DecidableEq

/-- Number of occurrences of event `e` in an event log. -/
def countE (e : Event) : List Event → Nat
  | [] => 0
  | x :: xs => (if x = e then 1 else 0) + countE e xs

/-- The global mutable state of the sketch.  One field per global variable,
plus the three output pins written by `digitalWrite` (`true` = HIGH). -/
structure GateState where
  currentMillis : Nat
  previousMillis : Nat
  buttonResetTimestamp : Nat
  buttonUpTimestamp : Nat
  buttonDownTimestamp : Nat
  sensorInTimestamp : Nat
  sensorOutTimestamp : Nat
  buzzerTimestamp : Nat
  displayTimestamp : Nat
  keepRedTimestamp : Nat
  buttonResetBlocked : Bool
  buttonResetWasPressed : Bool
  buttonUpWasPressed : Bool
  buttonDownWasPressed : Bool
  sensorInWasActive : Bool
  sensorOutWasActive : Bool
  buzzerIsActive : Bool
  displayUpdated : Bool
  buttonResetNowPressed : Bool
  buttonUpNowPressed : Bool
  buttonDownNowPressed : Bool
  sensorInNowActive : Bool
  sensorOutNowActive : Bool
  visitorCount : Nat
  maxVisitorCount : Nat
  buzzerPin : Bool
  redLightPin : Bool
  greenLightPin : Bool
  deriving Repr, DecidableEq

/-- `updateTimers()`: read `millis()` (the `now` argument, truncated to 32
bits), zero all stored timestamps if the clock wrapped around, and commit
`previousMillis`. -/
def updateTimers (s : GateState) (now : Nat) : GateState :=
  let c := now % U32
  let s :=
    if c < s.previousMillis then
      { s with
        buttonResetTimestamp := 0
        buttonUpTimestamp := 0
        buttonDownTimestamp := 0
        sensorInTimestamp := 0
        sensorOutTimestamp := 0
        buzzerTimestamp := 0
        displayTimestamp := 0
        keepRedTimestamp := 0 }
    else s
  { s with currentMillis := c, previousMillis := c }

/-- `checkBuzzer()`: stop the buzzer once it has sounded for more than
`BUZZER_DURATION_MS`, then drive the buzzer pin from the state
(`buzzerIsActive ? LOW : HIGH` in the source, so active writes LOW). -/
def checkBuzzer (s : GateState) : GateState :=
  let s :=
    if s.buzzerIsActive ∧ usub s.currentMillis s.buzzerTimestamp > BUZZER_DURATION_MS then
      { s with buzzerIsActive := false, buzzerTimestamp := s.currentMillis }
    else s
  { s with buzzerPin := if s.buzzerIsActive then false else true }

/-- `buzz()`: start the buzzer unless it is already active; records the
start time and writes the pin HIGH. -/
def buzz (s : GateState) : GateState :=
  if s.buzzerIsActive then s
  else { s with buzzerIsActive := true, buzzerTimestamp := s.currentMillis, buzzerPin := true }

/-- `initializeDisplay()`: pure sink call, recorded as an event. -/
def initializeDisplay (s : GateState) : GateState × List Event :=
  (s, [Event.initDisp])

/-- `setDisplayText()`: pure sink call, recorded as an event. -/
def setDisplayText (s : GateState) : GateState × List Event :=
  (s, [Event.setText])

/-- `handleVisitorEntered()`: unconditionally increment the visitor count
(32-bit wrap), mark the display dirty, start the buzzer, and open the
forced-red window at the current time. -/
def handleVisitorEntered (s : GateState) : GateState × List Event :=
  let s := { s with visitorCount := (s.visitorCount + 1) % U32, displayUpdated := false }
  let s := buzz s
  ({ s with keepRedTimestamp := s.currentMillis }, [Event.enter])

/-- `handleVisitorLeft()`: buzz if the room was exactly full, decrement the
visitor count if positive, and mark the display dirty. -/
def handleVisitorLeft (s : GateState) : GateState × List Event :=
  let s := if s.visitorCount = s.maxVisitorCount then buzz s else s
  let s := if s.visitorCount > 0 then { s with visitorCount := s.visitorCount - 1 } else s
  ({ s with displayUpdated := false }, [Event.leave])

/-- `handleReset()`: restore the default parameters `(0, 20)`, mark the
display dirty and buzz. -/
def handleReset (s : GateState) : GateState × List Event :=
  let s := { s with visitorCount := 0, maxVisitorCount := 20, displayUpdated := false }
  (buzz s, [Event.reset])

/-- `handleButtonUp()`: record the fire time; increment `visitorCount` if
the reset button is currently held, else `maxVisitorCount` (32-bit wrap,
no clamp); mark the display dirty. -/
def handleButtonUp (s : GateState) : GateState × List Event :=
  let s := { s with buttonUpTimestamp := s.currentMillis }
  let s :=
    if s.buttonResetNowPressed then
      { s with visitorCount := (s.visitorCount + 1) % U32 }
    else
      { s with maxVisitorCount := (s.maxVisitorCount + 1) % U32 }
  ({ s with displayUpdated := false }, [Event.upFire])

/-- `handleButtonDown()`: record the fire time; decrement `visitorCount`
(if positive) when the reset button is currently held, else decrement
`maxVisitorCount` (if positive); mark the display dirty. -/
def handleButtonDown (s : GateState) : GateState × List Event :=
  let s := { s with buttonDownTimestamp := s.currentMillis }
  let s :=
    if s.buttonResetNowPressed then
      if s.visitorCount > 0 then { s with visitorCount := s.visitorCount - 1 } else s
    else
      if s.maxVisitorCount > 0 then { s with maxVisitorCount := s.maxVisitorCount - 1 } else s
  ({ s with displayUpdated := false }, [Event.downFire])

/-- `checkSensorIn()`: on a falling edge of the in-sensor, accept the event
(and restart the separation window) only when more than `SENSOR_DELAY_MS`
has elapsed since the last accepted event; otherwise drop it silently. -/
def checkSensorIn (s : GateState) : GateState × List Event :=
  if s.sensorInWasActive ∧ ¬s.sensorInNowActive then
    if usub s.currentMillis s.sensorInTimestamp > SENSOR_DELAY_MS then
      let p := handleVisitorEntered s
      ({ p.1 with sensorInTimestamp := p.1.currentMillis }, p.2)
    else (s, [])
  else (s, [])

/-- `checkSensorOut()`: same debouncing as `checkSensorIn`, firing
`handleVisitorLeft`. -/
def checkSensorOut (s : GateState) : GateState × List Event :=
  if s.sensorOutWasActive ∧ ¬s.sensorOutNowActive then
    if usub s.currentMillis s.sensorOutTimestamp > SENSOR_DELAY_MS then
      let p := handleVisitorLeft s
      ({ p.1 with sensorOutTimestamp := p.1.currentMillis }, p.2)
    else (s, [])
  else (s, [])

/-- The first block of `checkButtons()`: on release of the reset button
clear the lockout; on a rising edge restart the hold timer. -/
def buttonStage1 (s : GateState) : GateState :=
  if ¬s.buttonResetNowPressed then
    { s with buttonResetBlocked := false }
  else if ¬s.buttonResetWasPressed then
    { s with buttonResetTimestamp := s.currentMillis }
  else s

/-- `checkButtons()`: unblock the long press on release, restart the hold
timer on a rising edge of reset; fire the long-press reset once the hold
exceeds `BUTTON_LONG_DELAY_MS` (setting the lockout); otherwise auto-repeat
the up button, then the down button, each gated by
`BUTTON_REPEAT_DELAY_MS`. -/
def checkButtons (s : GateState) : GateState × List Event :=
  let s := buttonStage1 s
  if ¬s.buttonResetBlocked ∧ s.buttonResetWasPressed ∧ s.buttonResetNowPressed ∧
      usub s.currentMillis s.buttonResetTimestamp > BUTTON_LONG_DELAY_MS then
    handleReset { s with buttonResetBlocked := true }
  else if s.buttonUpNowPressed ∧
      usub s.currentMillis s.buttonUpTimestamp > BUTTON_REPEAT_DELAY_MS then
    handleButtonUp { s with buttonResetBlocked := s.buttonResetNowPressed }
  else if s.buttonDownNowPressed ∧
      usub s.currentMillis s.buttonDownTimestamp > BUTTON_REPEAT_DELAY_MS then
    handleButtonDown { s with buttonResetBlocked := s.buttonResetNowPressed }
  else (s, [])

/-- `updateLights()`: compute `allow = visitorCount < maxVisitorCount`;
while the forced-red window is open, either expire it (buzzing if entry is
then allowed) once more than `BUTTON_ENTRANCE_MIN_MS` has elapsed, or
override `allow` to false; finally drive the two light pins
(`allow ? LOW : HIGH` for red, `allow ? HIGH : LOW` for green). -/
def updateLights (s : GateState) : GateState :=
  let allow : Bool := s.visitorCount < s.maxVisitorCount
  let p : GateState × Bool :=
    if s.keepRedTimestamp > 0 then
      if usub s.currentMillis s.keepRedTimestamp > BUTTON_ENTRANCE_MIN_MS then
        let s := { s with keepRedTimestamp := 0 }
        (if allow then buzz s else s, allow)
      else (s, false)
    else (s, allow)
  { p.1 with
    redLightPin := if p.2 then false else true
    greenLightPin := if p.2 then true else false }

/-- `updateDisplay()`: force a reinitialization of the display (and mark it
dirty) every 60000 ms; run `updateLights`; then re-render and restamp only
when the display is dirty. -/
def updateDisplay (s : GateState) : GateState × List Event :=
  let p :=
    if usub s.currentMillis s.displayTimestamp > 60000 then
      initializeDisplay { s with displayUpdated := false }
    else (s, ([] : List Event))
  let s := updateLights p.1
  if s.displayUpdated then (s, p.2)
  else
    let q := setDisplayText { s with displayTimestamp := s.currentMillis, displayUpdated := true }
    (q.1, p.2 ++ q.2)

/-- Reading the five input pins at the top of `loop()`. -/
def readInputs (s : GateState) (inp : Inputs) : GateState :=
  { s with
    buttonResetNowPressed := inp.buttonReset
    buttonUpNowPressed := inp.buttonUp
    buttonDownNowPressed := inp.buttonDown
    sensorInNowActive := inp.sensorIn
    sensorOutNowActive := inp.sensorOut }

/-- The "update state" block at the bottom of `loop()`: commit the current
samples as the previous-tick samples. -/
def commitWasState (s : GateState) : GateState :=
  { s with
    buttonResetWasPressed := s.buttonResetNowPressed
    buttonUpWasPressed := s.buttonUpNowPressed
    buttonDownWasPressed := s.buttonDownNowPressed
    sensorInWasActive := s.sensorInNowActive
    sensorOutWasActive := s.sensorOutNowActive }

/-- One iteration of `loop()`, given the sampled inputs and the value the
clock reads this tick. -/
def tick (s : GateState) (inp : Inputs) (now : Nat) : GateState × List Event :=
  let s := readInputs s inp
  let s := updateTimers s now
  let s := checkBuzzer s
  let p1 := checkSensorIn s
  let p2 := checkSensorOut p1.1
  let p3 := checkButtons p2.1
  let p4 := updateDisplay p3.1
  (commitWasState p4.1, p1.2 ++ p2.2 ++ p3.2 ++ p4.2)

/-- Run a sequence of ticks, concatenating the event logs. -/
def runTicks (s : GateState) : List (Inputs × Nat) → GateState × List Event
  | [] => (s, [])
  | (inp, now) :: rest =>
    let p := tick s inp now
    let q := runTicks p.1 rest
    (q.1, p.2 ++ q.2)

/-- The global-variable initializers: all timers zero except the clock
cells and `keepRedTimestamp`, which are initialized from `millis()`
(reading `m0`); counters start at `(0, 5)`; output pins low. -/
def initialState (m0 : Nat) : GateState :=
  { currentMillis := m0
    previousMillis := m0
    buttonResetTimestamp := 0
    buttonUpTimestamp := 0
    buttonDownTimestamp := 0
    sensorInTimestamp := 0
    sensorOutTimestamp := 0
    buzzerTimestamp := 0
    displayTimestamp := 0
    keepRedTimestamp := m0
    buttonResetBlocked := false
    buttonResetWasPressed := false
    buttonUpWasPressed := false
    buttonDownWasPressed := false
    sensorInWasActive := false
    sensorOutWasActive := false
    buzzerIsActive := false
    displayUpdated := false
    buttonResetNowPressed := false
    buttonUpNowPressed := false
    buttonDownNowPressed := false
    sensorInNowActive := false
    sensorOutNowActive := false
    visitorCount := 0
    maxVisitorCount := 5
    buzzerPin := false
    redLightPin := false
    greenLightPin := false }

/-- `setup()` (after the pin configuration, which has no model content):
perform a reset and initialize the display. -/
def setupState (s : GateState) : GateState × List Event :=
  let p := handleReset s
  let q := initializeDisplay p.1
  (q.1, p.2 ++ q.2)

/-- All input samples idle (nothing pressed, no sensor active). -/
def idleInp : Inputs :=
  { buttonReset := false, buttonUp := false, buttonDown := false
    sensorIn := false, sensorOut := false }

/-- Only the in-sensor asserted. -/
def inpIn : Inputs := { idleInp with sensorIn := true }

/-- Only the reset button asserted. -/
def inpReset : Inputs := { idleInp with buttonReset := true }

/-- The state in which `loop()` first runs when the clock starts at 0:
global initializers followed by `setup()`. -/
def bootState : GateState := (setupState (initialState 0)).1

/-- A run with two in-sensor falling edges observed at times 2000 and
3000 — spaced exactly `SENSOR_DELAY_MS` apart. -/
def edgesAt1000Trace : List (Inputs × Nat) :=
  [(inpIn, 1500), (idleInp, 2000), (inpIn, 2500), (idleInp, 3000)]

/-- A run with six in-sensor falling edges spaced 1500 ms apart, starting
from the global-initializer state `(0, 5)`. -/
def sixEntriesTrace : List (Inputs × Nat) :=
  [(inpIn, 1400), (idleInp, 1500), (inpIn, 2900), (idleInp, 3000),
   (inpIn, 4400), (idleInp, 4500), (inpIn, 5900), (idleInp, 6000),
   (inpIn, 7400), (idleInp, 7500), (inpIn, 8900), (idleInp, 9000)]

/-- A run in which the start-up buzz expires at t = 600 and an entry is
accepted on the falling edge at t = 1700, starting the buzzer. -/
def buzzEdgeTrace : List (Inputs × Nat) :=
  [(idleInp, 600), (inpIn, 1600), (idleInp, 1700)]

/-- A run in which the reset button is held from the sample at t = 100
through the sample at t = 5100 (a hold spanning exactly
`BUTTON_LONG_DELAY_MS`) and is released by t = 5200. -/
def holdExactly5000Trace : List (Inputs × Nat) :=
  [(inpReset, 100), (inpReset, 5100), (idleInp, 5200)]

/-- `denyAll s l` holds when, running the ticks of `l` from `s`, the light
pins show DENY (red HIGH, green LOW) at the end of every tick. -/
def denyAll (s : GateState) : List (Inputs × Nat) → Bool
  | [] => true
  | (inp, t) :: rest =>
    let s2 := (tick s inp t).1
    s2.redLightPin && !s2.greenLightPin && denyAll s2 rest

/-- `timesOK c bound l`: the clock samples of `l` are nondecreasing,
start no earlier than `c`, and stay at most `bound`. -/
def timesOK (c bound : Nat) : List (Inputs × Nat) → Bool
  | [] => true
  | (_, t) :: rest => decide (c ≤ t) && decide (t ≤ bound) && timesOK t bound rest

/-- `allHeld l`: on every tick of `l` the reset button is sampled asserted
and the up and down buttons are sampled released. -/
def allHeld : List (Inputs × Nat) → Bool
  | [] => true
  | (inp, _) :: rest => inp.buttonReset && !inp.buttonUp && !inp.buttonDown && allHeld rest

/-- `timesMono c l`: the clock samples of `l` are nondecreasing, start no
earlier than `c`, and stay below `U32` (no wraparound). -/
def timesMono (c : Nat) : List (Inputs × Nat) → Bool
  | [] => true
  | (_, t) :: rest => decide (c ≤ t) && decide (t < U32) && timesMono t rest

/-- `anyPast d l`: some tick of `l` is sampled at a time strictly past
`d`. -/
def anyPast (d : Nat) : List (Inputs × Nat) → Bool
  | [] => false
  | (_, t) :: rest => decide (d < t) || anyPast d rest

/-! ### Helper lemmas -/

/-- On in-range operands, `usub` is ordinary subtraction. -/
theorem usub_eq_sub {a b : Nat} (hba : b ≤ a) (ha : a < U32) : usub a b = a - b := by
  unfold usub
  rw [Nat.mod_eq_of_lt ha, Nat.mod_eq_of_lt (lt_of_le_of_lt hba ha)]
  have h : a + U32 - b = U32 + (a - b) := by omega
  rw [h, Nat.add_mod_left]
  exact Nat.mod_eq_of_lt (by omega)

theorem buzz_visitorCount (s : GateState) : (buzz s).visitorCount = s.visitorCount := by
  unfold buzz; split <;> rfl

theorem buzz_maxVisitorCount (s : GateState) :
    (buzz s).maxVisitorCount = s.maxVisitorCount := by
  unfold buzz; split <;> rfl

theorem buzz_buzzerIsActive (s : GateState) : (buzz s).buzzerIsActive = true := by
  unfold buzz; split <;> simp_all

/-- Behaviour of `handleVisitorLeft` on each component of the state. -/
theorem handleVisitorLeft_spec (s : GateState) :
    (0 < s.visitorCount → (handleVisitorLeft s).1.visitorCount = s.visitorCount - 1) ∧
    (s.visitorCount = 0 → (handleVisitorLeft s).1.visitorCount = 0) ∧
    (s.visitorCount = s.maxVisitorCount → (handleVisitorLeft s).1.buzzerIsActive = true) ∧
    (s.visitorCount ≠ s.maxVisitorCount →
      (handleVisitorLeft s).1.buzzerIsActive = s.buzzerIsActive ∧
      (handleVisitorLeft s).1.buzzerTimestamp = s.buzzerTimestamp) := by
  simp only [handleVisitorLeft, buzz]
  split_ifs <;> simp_all

/-! ### Claim C3 -/

/-- Claim C3: `handleVisitorLeft` decrements `visitorCount` exactly when it
is positive, and invokes the buzzer exactly when `visitorCount` equals
`maxVisitorCount` at the moment of the call (leaving the alert state and
its timestamp untouched otherwise). -/
theorem claim_C3 (s : GateState) :
    (0 < s.visitorCount → (handleVisitorLeft s).1.visitorCount = s.visitorCount - 1) ∧
    (s.visitorCount = 0 → (handleVisitorLeft s).1.visitorCount = 0) ∧
    (s.visitorCount = s.maxVisitorCount → (handleVisitorLeft s).1.buzzerIsActive = true) ∧
    (s.visitorCount ≠ s.maxVisitorCount →
      (handleVisitorLeft s).1.buzzerIsActive = s.buzzerIsActive ∧
      (handleVisitorLeft s).1.buzzerTimestamp = s.buzzerTimestamp) := by
  exact handleVisitorLeft_spec s

/-- Witness for C3 at the spec's own scenario `(current, maximum) = (3, 3)`:
one `leave()` leaves `current = 2` and the alert is active. -/
theorem claim_C3_witness :
    (handleVisitorLeft { initialState 0 with visitorCount := 3, maxVisitorCount := 3 }).1.visitorCount = 2 ∧
    (handleVisitorLeft { initialState 0 with visitorCount := 3, maxVisitorCount := 3 }).1.buzzerIsActive = true := by
  have h := claim_C3 { initialState 0 with visitorCount := 3, maxVisitorCount := 3 }
  exact ⟨h.1 (by decide), h.2.2.1 (by decide)⟩

/-! ### Claim C4 -/

/-- Claim C4: `handleVisitorEntered` increments `visitorCount` by exactly
one (32-bit wrap is the only bound — there is no clamp at
`maxVisitorCount`), and six accepted entries starting from
`(current, maximum) = (0, 5)` leave `current = 6`. -/
theorem claim_C4 :
    (∀ s : GateState,
      (handleVisitorEntered s).1.visitorCount = (s.visitorCount + 1) % U32) ∧
    (∀ s : GateState, s.visitorCount + 1 < U32 →
      (handleVisitorEntered s).1.visitorCount = s.visitorCount + 1) ∧
    (runTicks (initialState 0) sixEntriesTrace).1.visitorCount = 6 ∧
    countE Event.enter (runTicks (initialState 0) sixEntriesTrace).2 = 6 := by
  refine ⟨?_, ?_, by decide, by decide⟩
  · intro s
    unfold handleVisitorEntered
    simp [buzz_visitorCount]
  · intro s h
    unfold handleVisitorEntered
    simp [buzz_visitorCount, Nat.mod_eq_of_lt h]

/-- Witness for C4: at the boot state (count 0), one entry gives count 1. -/
theorem claim_C4_witness :
    (handleVisitorEntered bootState).1.visitorCount = 1 := by
  exact claim_C4.2.1 bootState (by decide)

/-! ### Claim C8 -/

/-- Claim C8: `buzz()` is an exact no-op while the buzzer is active (so
re-triggering neither changes the flag nor refreshes the start timestamp),
and `checkBuzzer` keeps the buzzer active while at most
`BUZZER_DURATION_MS` has elapsed and deactivates it on any tick where more
than `BUZZER_DURATION_MS` has elapsed. -/
theorem claim_C8 (s : GateState) :
    (s.buzzerIsActive = true → buzz s = s) ∧
    (s.buzzerIsActive = false →
      (buzz s).buzzerIsActive = true ∧ (buzz s).buzzerTimestamp = s.currentMillis) ∧
    (s.buzzerIsActive = true →
      usub s.currentMillis s.buzzerTimestamp ≤ BUZZER_DURATION_MS →
      (checkBuzzer s).buzzerIsActive = true ∧
      (checkBuzzer s).buzzerTimestamp = s.buzzerTimestamp) ∧
    (s.buzzerIsActive = true →
      BUZZER_DURATION_MS < usub s.currentMillis s.buzzerTimestamp →
      (checkBuzzer s).buzzerIsActive = false) := by
  refine ⟨fun h => ?_, fun h => ?_, fun h hle => ?_, fun h hlt => ?_⟩
  · unfold buzz; simp [h]
  · unfold buzz; simp [h]
  · unfold checkBuzzer
    rw [if_neg (by simp [h]; omega)]
    simp [h]
  · unfold checkBuzzer
    rw [if_pos ⟨by simp [h], hlt⟩]

/-- Witness for C8 at a concrete sounding state: re-triggering at 400 ms
of elapsed time is a no-op and the buzzer is still active. -/
theorem claim_C8_witness :
    buzz { initialState 400 with buzzerIsActive := true } =
      { initialState 400 with buzzerIsActive := true } ∧
    (checkBuzzer { initialState 400 with buzzerIsActive := true }).buzzerIsActive = true := by
  have h := claim_C8 { initialState 400 with buzzerIsActive := true }
  exact ⟨h.1 (by decide), (h.2.2.1 (by decide) (by decide)).1⟩

/-! ### Claim C10 -/

/-- Claim C10: with `current = maximum = 0`, a `leave()` event starts the
buzzer (the full-room test `current == maximum` precedes and is
independent of the `current > 0` decrement guard) while `current` stays
0. -/
theorem claim_C10 (s : GateState)
    (h0 : s.visitorCount = 0) (hm : s.maxVisitorCount = 0) :
    (handleVisitorLeft s).1.buzzerIsActive = true ∧
    (handleVisitorLeft s).1.visitorCount = 0 := by
  have h := handleVisitorLeft_spec s
  exact ⟨h.2.2.1 (by rw [h0, hm]), h.2.1 h0⟩

/-- Witness for C10 at the concrete empty-and-zero-maximum state. -/
theorem claim_C10_witness :
    (handleVisitorLeft { initialState 0 with maxVisitorCount := 0 }).1.buzzerIsActive = true ∧
    (handleVisitorLeft { initialState 0 with maxVisitorCount := 0 }).1.visitorCount = 0 := by
  exact claim_C10 { initialState 0 with maxVisitorCount := 0 } (by decide) (by decide)

/-! ### Claim C7 -/

/-- Fields of the state that the first block of `checkButtons` leaves
untouched. -/
theorem buttonStage1_fields (s : GateState) :
    (buttonStage1 s).currentMillis = s.currentMillis ∧
    (buttonStage1 s).buttonUpNowPressed = s.buttonUpNowPressed ∧
    (buttonStage1 s).buttonUpTimestamp = s.buttonUpTimestamp ∧
    (buttonStage1 s).buttonDownNowPressed = s.buttonDownNowPressed ∧
    (buttonStage1 s).buttonDownTimestamp = s.buttonDownTimestamp ∧
    (buttonStage1 s).buttonResetNowPressed = s.buttonResetNowPressed ∧
    (buttonStage1 s).buttonResetWasPressed = s.buttonResetWasPressed ∧
    (buttonStage1 s).visitorCount = s.visitorCount ∧
    (buttonStage1 s).maxVisitorCount = s.maxVisitorCount := by
  simp only [buttonStage1]
  split_ifs <;> simp_all

/-- Claim C7: an up fire routes to `visitorCount` exactly when the reset
button is currently asserted and to `maxVisitorCount` otherwise, and
increments without clamping (32-bit wrap only); a down fire routes the
same way and decrements only above the floor 0; and, whenever the
long-press branch does not fire, each button fires under exactly the same
repeat gate `usub now lastFire > BUTTON_REPEAT_DELAY_MS` on its own
timestamp, irrespective of the reset routing (down being evaluated only
when up did not fire). -/
theorem claim_C7 (s : GateState) :
    (s.buttonResetNowPressed = true →
      (handleButtonUp s).1.visitorCount = (s.visitorCount + 1) % U32 ∧
      (handleButtonUp s).1.maxVisitorCount = s.maxVisitorCount ∧
      (handleButtonDown s).1.visitorCount =
        (if 0 < s.visitorCount then s.visitorCount - 1 else s.visitorCount) ∧
      (handleButtonDown s).1.maxVisitorCount = s.maxVisitorCount) ∧
    (s.buttonResetNowPressed = false →
      (handleButtonUp s).1.maxVisitorCount = (s.maxVisitorCount + 1) % U32 ∧
      (handleButtonUp s).1.visitorCount = s.visitorCount ∧
      (handleButtonDown s).1.maxVisitorCount =
        (if 0 < s.maxVisitorCount then s.maxVisitorCount - 1 else s.maxVisitorCount) ∧
      (handleButtonDown s).1.visitorCount = s.visitorCount) ∧
    (handleButtonUp s).1.buttonUpTimestamp = s.currentMillis ∧
    (handleButtonDown s).1.buttonDownTimestamp = s.currentMillis ∧
    (¬(¬(buttonStage1 s).buttonResetBlocked ∧ s.buttonResetWasPressed = true ∧
        s.buttonResetNowPressed = true ∧
        BUTTON_LONG_DELAY_MS < usub s.currentMillis (buttonStage1 s).buttonResetTimestamp) →
      countE Event.upFire (checkButtons s).2 =
        (if s.buttonUpNowPressed = true ∧
            BUTTON_REPEAT_DELAY_MS < usub s.currentMillis s.buttonUpTimestamp
         then 1 else 0) ∧
      (¬(s.buttonUpNowPressed = true ∧
          BUTTON_REPEAT_DELAY_MS < usub s.currentMillis s.buttonUpTimestamp) →
        countE Event.downFire (checkButtons s).2 =
          (if s.buttonDownNowPressed = true ∧
              BUTTON_REPEAT_DELAY_MS < usub s.currentMillis s.buttonDownTimestamp
           then 1 else 0))) := by
  obtain ⟨hc, hun, hut, hdn, hdt, hrn, hrw, hv, hm⟩ := buttonStage1_fields s
  refine ⟨fun h => ?_, fun h => ?_, ?_, ?_, fun hnl => ?_⟩
  · simp only [handleButtonUp, handleButtonDown, h]
    split_ifs <;> simp_all
  · simp only [handleButtonUp, handleButtonDown, h]
    split_ifs <;> simp_all
  · simp only [handleButtonUp]
    split_ifs <;> rfl
  · simp only [handleButtonDown]
    split_ifs <;> rfl
  · simp only [checkButtons]
    rw [if_neg (by rw [hc, hrn, hrw]; exact hnl)]
    constructor
    · by_cases hup : s.buttonUpNowPressed = true ∧
          BUTTON_REPEAT_DELAY_MS < usub s.currentMillis s.buttonUpTimestamp
      · rw [if_pos (by rw [hc, hun, hut]; exact ⟨hup.1, hup.2⟩), if_pos hup]
        simp [handleButtonUp, countE]
      · rw [if_neg (by rw [hc, hun, hut]; exact hup), if_neg hup]
        by_cases hdw : (buttonStage1 s).buttonDownNowPressed = true ∧
            usub (buttonStage1 s).currentMillis (buttonStage1 s).buttonDownTimestamp >
              BUTTON_REPEAT_DELAY_MS
        · rw [if_pos hdw]
          simp [handleButtonDown, countE]
        · rw [if_neg hdw]
          simp [countE]
    · intro hup
      rw [if_neg (by rw [hc, hun, hut]; exact hup)]
      by_cases hdw : s.buttonDownNowPressed = true ∧
          BUTTON_REPEAT_DELAY_MS < usub s.currentMillis s.buttonDownTimestamp
      · rw [if_pos (by rw [hc, hdn, hdt]; exact ⟨hdw.1, hdw.2⟩), if_pos hdw]
        simp [handleButtonDown, countE]
      · rw [if_neg (by rw [hc, hdn, hdt]; exact hdw), if_neg hdw]
        simp [countE]

/-- Witness for C7: with reset not held and the up button firing at a
concrete state, `maxVisitorCount` is incremented and exactly one up fire
is recorded. -/
theorem claim_C7_witness :
    (handleButtonUp { initialState 2000 with buttonUpNowPressed := true, visitorCount := 4, maxVisitorCount := 4 }).1.maxVisitorCount = 5 ∧
    countE Event.upFire (checkButtons { initialState 2000 with buttonUpNowPressed := true, visitorCount := 4, maxVisitorCount := 4 }).2 = 1 := by
  have h := claim_C7 { initialState 2000 with buttonUpNowPressed := true, visitorCount := 4, maxVisitorCount := 4 }
  refine ⟨(h.2.1 (by decide)).1, ?_⟩
  have h2 := (h.2.2.2.2 (by decide)).1
  rw [if_pos (by decide)] at h2
  exact h2

/-! ### Claim C9 -/

theorem updateLights_displayUpdated (s : GateState) :
    (updateLights s).displayUpdated = s.displayUpdated := by
  simp only [updateLights, buzz]
  split_ifs <;> rfl

theorem updateLights_currentMillis (s : GateState) :
    (updateLights s).currentMillis = s.currentMillis := by
  simp only [updateLights, buzz]
  split_ifs <;> rfl

theorem updateLights_displayTimestamp (s : GateState) :
    (updateLights s).displayTimestamp = s.displayTimestamp := by
  simp only [updateLights, buzz]
  split_ifs <;> rfl

/-- Claim C9: one call of `updateDisplay` reinitializes the display sink
exactly when more than 60000 ms have elapsed since the last render,
independently of the dirty flag, and re-renders the text exactly when the
dirty flag is set at the render check (the flag having been forced by the
periodic reinitialization when it fires). -/
theorem claim_C9 (s : GateState) :
    countE Event.initDisp (updateDisplay s).2 =
      (if 60000 < usub s.currentMillis s.displayTimestamp then 1 else 0) ∧
    countE Event.setText (updateDisplay s).2 =
      (if 60000 < usub s.currentMillis s.displayTimestamp ∨ s.displayUpdated = false
       then 1 else 0) := by
  by_cases h1 : 60000 < usub s.currentMillis s.displayTimestamp <;>
    by_cases h2 : s.displayUpdated = true <;>
      simp [updateDisplay, initializeDisplay, setDisplayText, h1, h2,
        updateLights_displayUpdated, countE]

/-! ### Claim C1 -/

/-- Counterexample to C1 as stated: starting from the boot state, run
`edgesAt1000Trace`, whose two in-sensor falling edges are observed at
t = 2000 and t = 3000 — spaced exactly 1000 ms apart, so the claim
("edges spaced at least 1000 ms apart each produce exactly one `enter()`
call") predicts two `enter()` calls.  The code compares with a strict
`>` (`currentMillis - sensorInTimestamp > SENSOR_DELAY_MS`), so the second
edge is dropped and only one `enter()` happens. -/
theorem claim_C1_counterexample :
    countE Event.enter (runTicks bootState edgesAt1000Trace).2 = 1 ∧
    countE Event.enter (runTicks bootState edgesAt1000Trace).2 ≠ 2 := by
  exact ⟨by decide, by decide⟩

/-- Claim C1 (amended: the separation must strictly exceed
`SENSOR_DELAY_MS`, i.e. be at least 1001 ms): on a tick observing an
in-sensor falling edge, if strictly more than `SENSOR_DELAY_MS` has
elapsed since the last accepted in-event, exactly one `enter()` fires and
the separation window restarts at the current time; a falling edge within
the window leaves the state exactly unchanged and produces no event
(dropped, not queued); a tick without a falling edge does nothing. -/
theorem claim_C1_amended (s : GateState) :
    (s.sensorInWasActive = true → s.sensorInNowActive = false →
      SENSOR_DELAY_MS < usub s.currentMillis s.sensorInTimestamp →
      countE Event.enter (checkSensorIn s).2 = 1 ∧
      (checkSensorIn s).1.sensorInTimestamp = s.currentMillis) ∧
    (s.sensorInWasActive = true → s.sensorInNowActive = false →
      usub s.currentMillis s.sensorInTimestamp ≤ SENSOR_DELAY_MS →
      (checkSensorIn s).1 = s ∧ (checkSensorIn s).2 = []) ∧
    (¬(s.sensorInWasActive = true ∧ s.sensorInNowActive = false) →
      (checkSensorIn s).1 = s ∧ (checkSensorIn s).2 = []) := by
  refine ⟨fun hw hn hgap => ?_, fun hw hn hgap => ?_, fun hne => ?_⟩
  · simp only [checkSensorIn, handleVisitorEntered]
    rw [if_pos (by simp [hw, hn]), if_pos hgap]
    constructor
    · simp [countE]
    · simp only [buzz]
      split_ifs <;> rfl
  · simp only [checkSensorIn]
    rw [if_pos (by simp [hw, hn]), if_neg (by omega)]
    exact ⟨rfl, rfl⟩
  · simp only [checkSensorIn]
    rw [if_neg (by simpa using hne)]
    exact ⟨rfl, rfl⟩

/-- Witness for the amended C1, on the accepting branch at a concrete
state: an edge 2000 ms after the last accepted event fires exactly one
`enter()` and restamps the window. -/
theorem claim_C1_witness :
    countE Event.enter (checkSensorIn { initialState 2000 with sensorInWasActive := true }).2 = 1 ∧
    (checkSensorIn { initialState 2000 with sensorInWasActive := true }).1.sensorInTimestamp = 2000 := by
  exact (claim_C1_amended { initialState 2000 with sensorInWasActive := true }).1 rfl rfl (by decide)

/-! ### Claim C5 -/

/-- Claim C5 fails on the code: two reachable end-of-tick configurations
have the alert SOUNDING (`buzzerIsActive = true`) but opposite buzzer pin
levels, so the pin is not a pure function of the alert state.  On the
tick where the entry is accepted (t = 1700), `buzz()` runs after
`checkBuzzer` and leaves the pin written HIGH; on the next tick (t = 1800)
`checkBuzzer` drives the pin LOW because the buzzer is active
(`buzzerIsActive ? LOW : HIGH`).  Whichever level is taken as "asserted",
"pin asserted iff SOUNDING, regardless of which operation last wrote the
pin" is violated on one of the two ticks. -/
theorem claim_C5_code_divergence :
    (runTicks bootState buzzEdgeTrace).1.buzzerIsActive = true ∧
    (runTicks bootState buzzEdgeTrace).1.buzzerPin = true ∧
    (tick (runTicks bootState buzzEdgeTrace).1 idleInp 1800).1.buzzerIsActive = true ∧
    (tick (runTicks bootState buzzEdgeTrace).1 idleInp 1800).1.buzzerPin = false := by
  exact ⟨by decide, by decide, by decide, by decide⟩

/-! ### Frame lemmas for the tick pipeline -/

/-- Without clock wraparound, `updateTimers` only moves the clock cells. -/
theorem updateTimers_no_wrap (s : GateState) (t : Nat)
    (h1 : s.previousMillis ≤ t) (ht : t < U32) :
    updateTimers s t = { s with currentMillis := t, previousMillis := t } := by
  simp only [updateTimers]
  rw [Nat.mod_eq_of_lt ht, if_neg (by omega)]

/-- `checkBuzzer` only touches the buzzer fields and its pin. -/
theorem checkBuzzer_frame (s : GateState) :
    (checkBuzzer s).keepRedTimestamp = s.keepRedTimestamp ∧
    (checkBuzzer s).currentMillis = s.currentMillis ∧
    (checkBuzzer s).previousMillis = s.previousMillis ∧
    (checkBuzzer s).buttonResetBlocked = s.buttonResetBlocked ∧
    (checkBuzzer s).buttonResetWasPressed = s.buttonResetWasPressed ∧
    (checkBuzzer s).buttonResetNowPressed = s.buttonResetNowPressed ∧
    (checkBuzzer s).buttonResetTimestamp = s.buttonResetTimestamp ∧
    (checkBuzzer s).buttonUpNowPressed = s.buttonUpNowPressed ∧
    (checkBuzzer s).buttonDownNowPressed = s.buttonDownNowPressed := by
  simp only [checkBuzzer]
  split_ifs <;> simp

/-- `checkSensorIn` leaves the button subsystem and the clock cells alone;
it can restamp `keepRedTimestamp` to the current time (accepted entry) but
nothing else; it never emits a reset event. -/
theorem checkSensorIn_frame (s : GateState) :
    ((checkSensorIn s).1.keepRedTimestamp = s.keepRedTimestamp ∨
      (checkSensorIn s).1.keepRedTimestamp = s.currentMillis) ∧
    (checkSensorIn s).1.currentMillis = s.currentMillis ∧
    (checkSensorIn s).1.previousMillis = s.previousMillis ∧
    (checkSensorIn s).1.buttonResetBlocked = s.buttonResetBlocked ∧
    (checkSensorIn s).1.buttonResetWasPressed = s.buttonResetWasPressed ∧
    (checkSensorIn s).1.buttonResetNowPressed = s.buttonResetNowPressed ∧
    (checkSensorIn s).1.buttonResetTimestamp = s.buttonResetTimestamp ∧
    (checkSensorIn s).1.buttonUpNowPressed = s.buttonUpNowPressed ∧
    (checkSensorIn s).1.buttonDownNowPressed = s.buttonDownNowPressed ∧
    countE Event.reset (checkSensorIn s).2 = 0 := by
  simp only [checkSensorIn, handleVisitorEntered, buzz]
  split_ifs <;> simp [countE]

/-- `checkSensorOut` leaves the button subsystem, the clock cells and the
forced-red window alone, and never emits a reset event. -/
theorem checkSensorOut_frame (s : GateState) :
    (checkSensorOut s).1.keepRedTimestamp = s.keepRedTimestamp ∧
    (checkSensorOut s).1.currentMillis = s.currentMillis ∧
    (checkSensorOut s).1.previousMillis = s.previousMillis ∧
    (checkSensorOut s).1.buttonResetBlocked = s.buttonResetBlocked ∧
    (checkSensorOut s).1.buttonResetWasPressed = s.buttonResetWasPressed ∧
    (checkSensorOut s).1.buttonResetNowPressed = s.buttonResetNowPressed ∧
    (checkSensorOut s).1.buttonResetTimestamp = s.buttonResetTimestamp ∧
    (checkSensorOut s).1.buttonUpNowPressed = s.buttonUpNowPressed ∧
    (checkSensorOut s).1.buttonDownNowPressed = s.buttonDownNowPressed ∧
    countE Event.reset (checkSensorOut s).2 = 0 := by
  simp only [checkSensorOut, handleVisitorLeft, buzz]
  split_ifs <;> simp [countE]

/-- `checkButtons` leaves the forced-red window and the clock cells
alone. -/
theorem checkButtons_frame (s : GateState) :
    (checkButtons s).1.keepRedTimestamp = s.keepRedTimestamp ∧
    (checkButtons s).1.currentMillis = s.currentMillis ∧
    (checkButtons s).1.previousMillis = s.previousMillis := by
  simp only [checkButtons, buttonStage1, handleReset, handleButtonUp, handleButtonDown, buzz]
  split_ifs <;> simp

/-- While the forced-red window is open and unexpired, `updateLights`
drives DENY and changes nothing else. -/
theorem updateLights_deny (s : GateState) (hk : 0 < s.keepRedTimestamp)
    (hle : usub s.currentMillis s.keepRedTimestamp ≤ BUTTON_ENTRANCE_MIN_MS) :
    updateLights s = { s with redLightPin := true, greenLightPin := false } := by
  simp only [updateLights]
  rw [if_pos hk, if_neg (by omega)]
  rfl

/-- `updateDisplay` under an open, unexpired forced-red window: the lights
show DENY and the window, the clock cells and the pins survive the display
bookkeeping. -/
theorem updateDisplay_deny (s : GateState) (hk : 0 < s.keepRedTimestamp)
    (hle : usub s.currentMillis s.keepRedTimestamp ≤ BUTTON_ENTRANCE_MIN_MS) :
    (updateDisplay s).1.redLightPin = true ∧
    (updateDisplay s).1.greenLightPin = false ∧
    (updateDisplay s).1.keepRedTimestamp = s.keepRedTimestamp ∧
    (updateDisplay s).1.currentMillis = s.currentMillis ∧
    (updateDisplay s).1.previousMillis = s.previousMillis := by
  simp only [updateDisplay, initializeDisplay, setDisplayText]
  by_cases h1 : 60000 < usub s.currentMillis s.displayTimestamp
  · rw [if_pos h1,
      updateLights_deny { s with displayUpdated := false } hk hle]
    split_ifs <;> simp
  · rw [if_neg h1, updateLights_deny s hk hle]
    split_ifs <;> simp

/-! ### Claim C2 -/

/-- One tick under an open forced-red window that cannot yet expire
(`t ≤ k0 + BUTTON_ENTRANCE_MIN_MS` and the window started at or after
`k0`): the window stays open at or after `k0`, the clock advances to `t`,
and the tick ends with the lights showing DENY — whatever the inputs and
the occupancy are. -/
theorem tick_deny_step (k0 : Nat) (s : GateState) (inp : Inputs) (t : Nat)
    (hU : k0 + BUTTON_ENTRANCE_MIN_MS < U32)
    (hk0 : 0 < k0) (hk : k0 ≤ s.keepRedTimestamp)
    (hkc : s.keepRedTimestamp ≤ s.currentMillis)
    (hpc : s.previousMillis = s.currentMillis)
    (hct : s.currentMillis ≤ t) (htb : t ≤ k0 + BUTTON_ENTRANCE_MIN_MS) :
    k0 ≤ (tick s inp t).1.keepRedTimestamp ∧
    (tick s inp t).1.keepRedTimestamp ≤ (tick s inp t).1.currentMillis ∧
    (tick s inp t).1.previousMillis = (tick s inp t).1.currentMillis ∧
    (tick s inp t).1.currentMillis = t ∧
    (tick s inp t).1.redLightPin = true ∧
    (tick s inp t).1.greenLightPin = false := by
  have htU : t < U32 := lt_of_le_of_lt htb hU
  have hP : (readInputs s inp).previousMillis ≤ t := by
    show s.previousMillis ≤ t
    omega
  have hB := updateTimers_no_wrap (readInputs s inp) t hP htU
  simp only [tick, hB]
  set sB : GateState := { readInputs s inp with currentMillis := t, previousMillis := t }
    with hsB
  have hBk : sB.keepRedTimestamp = s.keepRedTimestamp := rfl
  have hBc : sB.currentMillis = t := rfl
  have hBp : sB.previousMillis = t := rfl
  obtain ⟨k1, c1, p1, -, -, -, -, -, -⟩ := checkBuzzer_frame sB
  set sC := checkBuzzer sB with hsC
  obtain ⟨k2, c2, p2, -, -, -, -, -, -, -⟩ := checkSensorIn_frame sC
  set s1 := (checkSensorIn sC).1 with hs1
  obtain ⟨k3, c3, p3, -, -, -, -, -, -, -⟩ := checkSensorOut_frame s1
  set s2 := (checkSensorOut s1).1 with hs2
  obtain ⟨k4, c4, p4⟩ := checkButtons_frame s2
  set s3 := (checkButtons s2).1 with hs3
  have hcur3 : s3.currentMillis = t := by omega
  have hprev3 : s3.previousMillis = t := by omega
  have hk3a : k0 ≤ s3.keepRedTimestamp := by rcases k2 with h | h <;> omega
  have hk3b : s3.keepRedTimestamp ≤ t := by rcases k2 with h | h <;> omega
  have hle3 : usub s3.currentMillis s3.keepRedTimestamp ≤ BUTTON_ENTRANCE_MIN_MS := by
    rw [hcur3, usub_eq_sub hk3b htU]
    omega
  obtain ⟨hr, hg, hkk, hcc, hpp⟩ := updateDisplay_deny s3 (by omega) hle3
  refine ⟨?_, ?_, ?_, ?_, ?_, ?_⟩
  · show k0 ≤ (updateDisplay s3).1.keepRedTimestamp
    omega
  · show (updateDisplay s3).1.keepRedTimestamp ≤ (updateDisplay s3).1.currentMillis
    omega
  · show (updateDisplay s3).1.previousMillis = (updateDisplay s3).1.currentMillis
    omega
  · show (updateDisplay s3).1.currentMillis = t
    omega
  · exact hr
  · exact hg

/-- Under an open forced-red window that started at or after time `k0`,
every tick whose clock sample stays within `k0 + BUTTON_ENTRANCE_MIN_MS`
ends with the lights showing DENY. -/
theorem denyAll_of_keepRed (k0 : Nat) (l : List (Inputs × Nat)) :
    ∀ s : GateState, k0 + BUTTON_ENTRANCE_MIN_MS < U32 → 0 < k0 →
    k0 ≤ s.keepRedTimestamp → s.keepRedTimestamp ≤ s.currentMillis →
    s.previousMillis = s.currentMillis →
    timesOK s.currentMillis (k0 + BUTTON_ENTRANCE_MIN_MS) l = true →
    denyAll s l = true := by
  induction l with
  | nil => intro s _ _ _ _ _ _; rfl
  | cons p rest ih =>
    obtain ⟨inp, t⟩ := p
    intro s hU hk0 hk hkc hpc htimes
    simp only [timesOK, Bool.and_eq_true, decide_eq_true_eq] at htimes
    obtain ⟨⟨h1, h2⟩, h3⟩ := htimes
    obtain ⟨g1, g2, g3, g4, g5, g6⟩ := tick_deny_step k0 s inp t hU hk0 hk hkc hpc h1 h2
    simp only [denyAll, Bool.and_eq_true, Bool.not_eq_true']
    refine ⟨⟨g5, g6⟩, ?_⟩
    refine ih (tick s inp t).1 hU hk0 g1 g2 g3 ?_
    rw [g4]
    exact h3

/-- Claim C2: an accepted entry opens the forced-red window at the entry
tick's time; from any state whose window is open (started at or after a
positive `k0`), every subsequent tick up to `k0 + BUTTON_ENTRANCE_MIN_MS`
ends with the indicator in DENY (red HIGH, green LOW) regardless of inputs
and occupancy; and on a tick where the elapsed time strictly exceeds
`BUTTON_ENTRANCE_MIN_MS`, `updateLights` clears the window and, if
`visitorCount < maxVisitorCount` at that moment, starts the alert. -/
theorem claim_C2 :
    (∀ s : GateState, (handleVisitorEntered s).1.keepRedTimestamp = s.currentMillis) ∧
    (∀ (k0 : Nat) (s : GateState) (l : List (Inputs × Nat)),
      k0 + BUTTON_ENTRANCE_MIN_MS < U32 → 0 < k0 →
      k0 ≤ s.keepRedTimestamp → s.keepRedTimestamp ≤ s.currentMillis →
      s.previousMillis = s.currentMillis →
      timesOK s.currentMillis (k0 + BUTTON_ENTRANCE_MIN_MS) l = true →
      denyAll s l = true) ∧
    (∀ s : GateState, 0 < s.keepRedTimestamp →
      BUTTON_ENTRANCE_MIN_MS < usub s.currentMillis s.keepRedTimestamp →
      (updateLights s).keepRedTimestamp = 0 ∧
      (s.visitorCount < s.maxVisitorCount → (updateLights s).buzzerIsActive = true)) := by
  refine ⟨fun s => ?_, fun k0 s l hU hk0 hk hkc hpc ht => denyAll_of_keepRed k0 l s hU hk0 hk hkc hpc ht, fun s hk hgt => ?_⟩
  · simp only [handleVisitorEntered, buzz]
    split_ifs <;> rfl
  · simp only [updateLights]
    rw [if_pos hk, if_pos hgt]
    constructor
    · by_cases hvm : s.visitorCount < s.maxVisitorCount <;>
        simp [hvm, buzz] <;> split_ifs <;> rfl
    · intro hvm
      rw [if_pos (by simpa using hvm)]
      exact buzz_buzzerIsActive _

/-- Witness for C2: the entry stamp, a concrete two-tick DENY run inside
the window, and a concrete expiry tick that clears the window and starts
the alert. -/
theorem claim_C2_witness :
    (handleVisitorEntered (initialState 500)).1.keepRedTimestamp = 500 ∧
    denyAll (initialState 2000) [(idleInp, 3000), (idleInp, 4000)] = true ∧
    (updateLights { initialState 4001 with keepRedTimestamp := 2000 }).keepRedTimestamp = 0 ∧
    (updateLights { initialState 4001 with keepRedTimestamp := 2000 }).buzzerIsActive = true := by
  refine ⟨claim_C2.1 (initialState 500),
    claim_C2.2.1 2000 (initialState 2000) [(idleInp, 3000), (idleInp, 4000)]
      (by decide) (by decide) (by decide) (by decide) (by decide) (by decide), ?_, ?_⟩
  · exact (claim_C2.2.2 { initialState 4001 with keepRedTimestamp := 2000 }
      (by decide) (by decide)).1
  · exact (claim_C2.2.2 { initialState 4001 with keepRedTimestamp := 2000 }
      (by decide) (by decide)).2 (by decide)

/-! ### Claim C6 -/

theorem countE_append (e : Event) (l1 l2 : List Event) :
    countE e (l1 ++ l2) = countE e l1 + countE e l2 := by
  induction l1 with
  | nil => simp [countE]
  | cons x xs ih => simp [countE, ih]; omega

/-- While the reset button stays pressed across two ticks, the first block
of `checkButtons` does nothing. -/
theorem buttonStage1_held (s : GateState) (hw : s.buttonResetWasPressed = true)
    (hn : s.buttonResetNowPressed = true) : buttonStage1 s = s := by
  simp [buttonStage1, hw, hn]

/-- While the reset button is pressed, the first block of `checkButtons`
does not touch the lockout flag. -/
theorem buttonStage1_pressed (s : GateState) (hn : s.buttonResetNowPressed = true) :
    (buttonStage1 s).buttonResetBlocked = s.buttonResetBlocked := by
  simp only [buttonStage1]
  split_ifs <;> simp_all

/-- `handleReset` restores the defaults and touches nothing in the button
or clock subsystems. -/
theorem handleReset_frame (s : GateState) :
    (handleReset s).1.visitorCount = 0 ∧
    (handleReset s).1.maxVisitorCount = 20 ∧
    (handleReset s).1.buttonResetBlocked = s.buttonResetBlocked ∧
    (handleReset s).1.buttonResetWasPressed = s.buttonResetWasPressed ∧
    (handleReset s).1.buttonResetNowPressed = s.buttonResetNowPressed ∧
    (handleReset s).1.buttonResetTimestamp = s.buttonResetTimestamp ∧
    (handleReset s).1.currentMillis = s.currentMillis ∧
    (handleReset s).1.previousMillis = s.previousMillis ∧
    (handleReset s).2 = [Event.reset] := by
  simp only [handleReset, buzz]
  split_ifs <;> simp

/-- On a tick where the reset button is held (was and still is pressed)
and up/down are released, `checkButtons` is the identity unless the
long press fires. -/
theorem checkButtons_held_nofire (s : GateState)
    (hw : s.buttonResetWasPressed = true) (hn : s.buttonResetNowPressed = true)
    (hup : s.buttonUpNowPressed = false) (hdn : s.buttonDownNowPressed = false)
    (hno : s.buttonResetBlocked = true ∨
      usub s.currentMillis s.buttonResetTimestamp ≤ BUTTON_LONG_DELAY_MS) :
    checkButtons s = (s, []) := by
  simp only [checkButtons, buttonStage1_held s hw hn]
  rw [if_neg (by
    intro hc
    rcases hno with hb | hle
    · exact hc.1 (by rw [hb])
    · omega)]
  rw [if_neg (by simp [hup]), if_neg (by simp [hdn])]

/-- On a held tick with the lockout clear and the hold strictly past
`BUTTON_LONG_DELAY_MS`, `checkButtons` performs the full reset, sets the
lockout, and emits exactly the reset event. -/
theorem checkButtons_held_fire (s : GateState)
    (hw : s.buttonResetWasPressed = true) (hn : s.buttonResetNowPressed = true)
    (hbl : s.buttonResetBlocked = false)
    (hgt : BUTTON_LONG_DELAY_MS < usub s.currentMillis s.buttonResetTimestamp) :
    checkButtons s = handleReset { s with buttonResetBlocked := true } := by
  simp only [checkButtons, buttonStage1_held s hw hn]
  rw [if_pos ⟨by simp [hbl], by simp [hw], by simp [hn], hgt⟩]

/-- `updateLights` touches neither the button subsystem, the clock cells,
nor the display bookkeeping. -/
theorem updateLights_frame (s : GateState) :
    (updateLights s).buttonResetBlocked = s.buttonResetBlocked ∧
    (updateLights s).buttonResetWasPressed = s.buttonResetWasPressed ∧
    (updateLights s).buttonResetNowPressed = s.buttonResetNowPressed ∧
    (updateLights s).buttonResetTimestamp = s.buttonResetTimestamp ∧
    (updateLights s).currentMillis = s.currentMillis ∧
    (updateLights s).previousMillis = s.previousMillis ∧
    (updateLights s).displayUpdated = s.displayUpdated := by
  simp only [updateLights, buzz]
  split_ifs <;> simp

/-- `updateDisplay` touches neither the button subsystem nor the clock
cells, and never emits a reset event. -/
theorem updateDisplay_frame (s : GateState) :
    (updateDisplay s).1.buttonResetBlocked = s.buttonResetBlocked ∧
    (updateDisplay s).1.buttonResetWasPressed = s.buttonResetWasPressed ∧
    (updateDisplay s).1.buttonResetNowPressed = s.buttonResetNowPressed ∧
    (updateDisplay s).1.buttonResetTimestamp = s.buttonResetTimestamp ∧
    (updateDisplay s).1.currentMillis = s.currentMillis ∧
    (updateDisplay s).1.previousMillis = s.previousMillis ∧
    countE Event.reset (updateDisplay s).2 = 0 := by
  simp only [updateDisplay, initializeDisplay, setDisplayText]
  by_cases h1 : 60000 < usub s.currentMillis s.displayTimestamp
  · rw [if_pos h1]
    obtain ⟨b, w, n, ts, c, p, du⟩ := updateLights_frame { s with displayUpdated := false }
    rw [if_neg (by rw [du]; simp)]
    exact ⟨b, w, n, ts, c, p, by simp [countE]⟩
  · rw [if_neg h1]
    obtain ⟨b, w, n, ts, c, p, du⟩ := updateLights_frame s
    by_cases h2 : s.displayUpdated = true
    · rw [if_pos (by rw [du]; exact h2)]
      exact ⟨b, w, n, ts, c, p, by simp [countE]⟩
    · rw [if_neg (by rw [du]; exact h2)]
      exact ⟨b, w, n, ts, c, p, by simp [countE]⟩

set_option maxHeartbeats 2000000 in
/-- One tick with the reset button held across it (pressed on the previous
sample and still pressed) and up/down released: the hold timestamp
survives, the was-state stays pressed, and the long-press reset fires —
emitting exactly one reset event and setting the lockout — precisely when
the lockout was clear and the hold strictly exceeds
`BUTTON_LONG_DELAY_MS`. -/
theorem tick_held (s : GateState) (inp : Inputs) (t : Nat)
    (hr : inp.buttonReset = true) (hu : inp.buttonUp = false) (hd : inp.buttonDown = false)
    (hw : s.buttonResetWasPressed = true)
    (hpc : s.previousMillis = s.currentMillis) (hct : s.currentMillis ≤ t) (htU : t < U32) :
    (tick s inp t).1.buttonResetWasPressed = true ∧
    (tick s inp t).1.buttonResetTimestamp = s.buttonResetTimestamp ∧
    (tick s inp t).1.previousMillis = (tick s inp t).1.currentMillis ∧
    (tick s inp t).1.currentMillis = t ∧
    ((s.buttonResetBlocked = false ∧
        BUTTON_LONG_DELAY_MS < usub t s.buttonResetTimestamp) →
      countE Event.reset (tick s inp t).2 = 1 ∧
      (tick s inp t).1.buttonResetBlocked = true) ∧
    (¬(s.buttonResetBlocked = false ∧
        BUTTON_LONG_DELAY_MS < usub t s.buttonResetTimestamp) →
      countE Event.reset (tick s inp t).2 = 0 ∧
      (tick s inp t).1.buttonResetBlocked = s.buttonResetBlocked) := by
  have hP : (readInputs s inp).previousMillis ≤ t := by
    show s.previousMillis ≤ t
    omega
  have hB := updateTimers_no_wrap (readInputs s inp) t hP htU
  simp only [tick, hB]
  set sB : GateState := { readInputs s inp with currentMillis := t, previousMillis := t }
    with hsB
  have hBw : sB.buttonResetWasPressed = s.buttonResetWasPressed := rfl
  have hBn : sB.buttonResetNowPressed = inp.buttonReset := rfl
  have hBb : sB.buttonResetBlocked = s.buttonResetBlocked := rfl
  have hBt : sB.buttonResetTimestamp = s.buttonResetTimestamp := rfl
  have hBup : sB.buttonUpNowPressed = inp.buttonUp := rfl
  have hBdn : sB.buttonDownNowPressed = inp.buttonDown := rfl
  have hBc : sB.currentMillis = t := rfl
  have hBp : sB.previousMillis = t := rfl
  obtain ⟨-, cC, pC, bC, wC, nC, tC, upC, dnC⟩ := checkBuzzer_frame sB
  set sC := checkBuzzer sB with hsC
  obtain ⟨-, c1, p1, b1, w1, n1, t1, up1, dn1, e1⟩ := checkSensorIn_frame sC
  set s1 := (checkSensorIn sC).1 with hs1
  obtain ⟨-, c2, p2, b2, w2, n2, t2, up2, dn2, e2⟩ := checkSensorOut_frame s1
  set s2 := (checkSensorOut s1).1 with hs2
  have hw2 : s2.buttonResetWasPressed = true := by rw [w2, w1, wC, hBw, hw]
  have hn2 : s2.buttonResetNowPressed = true := by rw [n2, n1, nC, hBn, hr]
  have hup2 : s2.buttonUpNowPressed = false := by rw [up2, up1, upC, hBup, hu]
  have hdn2 : s2.buttonDownNowPressed = false := by rw [dn2, dn1, dnC, hBdn, hd]
  have hb2 : s2.buttonResetBlocked = s.buttonResetBlocked := by rw [b2, b1, bC, hBb]
  have ht2 : s2.buttonResetTimestamp = s.buttonResetTimestamp := by rw [t2, t1, tC, hBt]
  have hc2 : s2.currentMillis = t := by rw [c2, c1, cC, hBc]
  have hp2 : s2.previousMillis = t := by rw [p2, p1, pC, hBp]
  by_cases hfire : s.buttonResetBlocked = false ∧
      BUTTON_LONG_DELAY_MS < usub t s.buttonResetTimestamp
  · have hcb := checkButtons_held_fire s2 hw2 hn2 (by rw [hb2]; exact hfire.1)
      (by rw [hc2, ht2]; exact hfire.2)
    rw [hcb]
    obtain ⟨-, -, bR, wR, nR, tR, cR, pR, eR⟩ :=
      handleReset_frame { s2 with buttonResetBlocked := true }
    set s3 := (handleReset { s2 with buttonResetBlocked := true }).1 with hs3
    obtain ⟨b4, w4, n4, t4, c4, p4, e4⟩ := updateDisplay_frame s3
    refine ⟨?_, ?_, ?_, ?_, fun _ => ⟨?_, ?_⟩, fun hcon => absurd hfire hcon⟩
    · show (updateDisplay s3).1.buttonResetNowPressed = true
      rw [n4, nR]
      exact hn2
    · show (updateDisplay s3).1.buttonResetTimestamp = s.buttonResetTimestamp
      rw [t4, tR]
      exact ht2
    · show (updateDisplay s3).1.previousMillis = (updateDisplay s3).1.currentMillis
      rw [p4, c4, pR, cR, hc2, hp2]
    · show (updateDisplay s3).1.currentMillis = t
      rw [c4, cR, hc2]
    · rw [countE_append, countE_append, countE_append, e1, e2, e4, eR]
      rfl
    · show (updateDisplay s3).1.buttonResetBlocked = true
      rw [b4, bR]
  · have hcb := checkButtons_held_nofire s2 hw2 hn2 hup2 hdn2 (by
      cases hblv : s.buttonResetBlocked with
      | false =>
        right
        rw [hc2, ht2]
        by_contra hgt
        exact hfire ⟨hblv, by omega⟩
      | true =>
        left
        rw [hb2, hblv])
    rw [hcb]
    obtain ⟨b4, w4, n4, t4, c4, p4, e4⟩ := updateDisplay_frame s2
    refine ⟨?_, ?_, ?_, ?_, fun hcon => absurd hcon hfire, fun _ => ⟨?_, ?_⟩⟩
    · show (updateDisplay s2).1.buttonResetNowPressed = true
      rw [n4]
      exact hn2
    · show (updateDisplay s2).1.buttonResetTimestamp = s.buttonResetTimestamp
      rw [t4]
      exact ht2
    · show (updateDisplay s2).1.previousMillis = (updateDisplay s2).1.currentMillis
      rw [p4, c4, hc2, hp2]
    · show (updateDisplay s2).1.currentMillis = t
      rw [c4, hc2]
    · rw [countE_append, countE_append, countE_append, e1, e2, e4]
      rfl
    · show (updateDisplay s2).1.buttonResetBlocked = s.buttonResetBlocked
      rw [b4, hb2]

/-- Once the lockout is set, a continuously held reset button (up/down
released, clock monotone) never fires the long-press reset again. -/
theorem holdRun_blocked (l : List (Inputs × Nat)) :
    ∀ s : GateState, allHeld l = true → timesMono s.currentMillis l = true →
    s.buttonResetWasPressed = true → s.buttonResetBlocked = true →
    s.previousMillis = s.currentMillis →
    countE Event.reset (runTicks s l).2 = 0 := by
  induction l with
  | nil => intro s _ _ _ _ _; rfl
  | cons p rest ih =>
    obtain ⟨inp, t⟩ := p
    intro s hAll hmono hw hbl hpc
    simp only [allHeld, Bool.and_eq_true, Bool.not_eq_true'] at hAll
    obtain ⟨⟨⟨hr, hu⟩, hd⟩, hAllr⟩ := hAll
    simp only [timesMono, Bool.and_eq_true, decide_eq_true_eq] at hmono
    obtain ⟨⟨h1, h2⟩, h3⟩ := hmono
    obtain ⟨g1, g2, g3, g4, -, g6⟩ := tick_held s inp t hr hu hd hw hpc h1 h2
    obtain ⟨e0, gb⟩ := g6 (by simp [hbl])
    simp only [runTicks, countE_append, e0, Nat.zero_add]
    refine ih (tick s inp t).1 hAllr ?_ g1 (by rw [gb, hbl]) g3
    rw [g4]
    exact h3

/-- With the lockout clear and the hold timer at `t1`, a continuously held
reset button fires the long-press reset exactly once if some tick strictly
passes `t1 + BUTTON_LONG_DELAY_MS`, and not at all otherwise. -/
theorem holdRun_unblocked (l : List (Inputs × Nat)) :
    ∀ (s : GateState) (t1 : Nat), allHeld l = true →
    timesMono s.currentMillis l = true →
    s.buttonResetWasPressed = true → s.buttonResetBlocked = false →
    s.buttonResetTimestamp = t1 → t1 ≤ s.currentMillis →
    s.previousMillis = s.currentMillis →
    countE Event.reset (runTicks s l).2 =
      (if anyPast (t1 + BUTTON_LONG_DELAY_MS) l = true then 1 else 0) := by
  induction l with
  | nil => intro s t1 _ _ _ _ _ _ _; rfl
  | cons p rest ih =>
    obtain ⟨inp, t⟩ := p
    intro s t1 hAll hmono hw hbl hts ht1 hpc
    simp only [allHeld, Bool.and_eq_true, Bool.not_eq_true'] at hAll
    obtain ⟨⟨⟨hr, hu⟩, hd⟩, hAllr⟩ := hAll
    simp only [timesMono, Bool.and_eq_true, decide_eq_true_eq] at hmono
    obtain ⟨⟨h1, h2⟩, h3⟩ := hmono
    have husub : usub t s.buttonResetTimestamp = t - t1 := by
      rw [hts, usub_eq_sub (by omega) h2]
    obtain ⟨g1, g2, g3, g4, g5, g6⟩ := tick_held s inp t hr hu hd hw hpc h1 h2
    by_cases hfire : t1 + BUTTON_LONG_DELAY_MS < t
    · obtain ⟨e0, gb⟩ := g5 ⟨hbl, by omega⟩
      simp only [runTicks, countE_append, e0]
      have hrest : countE Event.reset (runTicks (tick s inp t).1 rest).2 = 0 := by
        refine holdRun_blocked rest (tick s inp t).1 hAllr ?_ g1 gb g3
        rw [g4]
        exact h3
      rw [hrest]
      simp only [anyPast, Bool.or_eq_true, decide_eq_true_eq]
      rw [if_pos (Or.inl hfire)]
    · obtain ⟨e0, gb⟩ := g6 (by
        rintro ⟨-, hgt⟩
        rw [husub] at hgt
        omega)
      simp only [runTicks, countE_append, e0, Nat.zero_add]
      have hrest := ih (tick s inp t).1 t1 hAllr (by rw [g4]; exact h3) g1
        (by rw [gb, hbl]) (by rw [g2, hts]) (by rw [g4]; omega) g3
      rw [hrest]
      simp [anyPast, hfire]

theorem handleButtonUp_frame (s : GateState) :
    (handleButtonUp s).1.buttonResetBlocked = s.buttonResetBlocked ∧
    (handleButtonUp s).2 = [Event.upFire] := by
  simp only [handleButtonUp]
  split_ifs <;> simp

theorem handleButtonDown_frame (s : GateState) :
    (handleButtonDown s).1.buttonResetBlocked = s.buttonResetBlocked ∧
    (handleButtonDown s).2 = [Event.downFire] := by
  simp only [handleButtonDown]
  split_ifs <;> simp

/-- On the rising edge of the reset button (with up/down released),
`checkButtons` only restarts the hold timer. -/
theorem checkButtons_rising (s : GateState)
    (hw : s.buttonResetWasPressed = false) (hn : s.buttonResetNowPressed = true)
    (hup : s.buttonUpNowPressed = false) (hdn : s.buttonDownNowPressed = false) :
    checkButtons s = ({ s with buttonResetTimestamp := s.currentMillis }, []) := by
  have hst : buttonStage1 s = { s with buttonResetTimestamp := s.currentMillis } := by
    simp [buttonStage1, hn, hw]
  simp only [checkButtons, hst]
  rw [if_neg (by simp [hw]), if_neg (by simp [hup]), if_neg (by simp [hdn])]

set_option maxHeartbeats 2000000 in
/-- The rising-edge tick of a hold: the hold timer restarts at this tick's
time, the lockout is untouched, no reset fires, and the was-state becomes
pressed. -/
theorem tick_rising (s : GateState) (inp : Inputs) (t : Nat)
    (hr : inp.buttonReset = true) (hu : inp.buttonUp = false) (hd : inp.buttonDown = false)
    (hw : s.buttonResetWasPressed = false)
    (hpc : s.previousMillis = s.currentMillis) (hct : s.currentMillis ≤ t) (htU : t < U32) :
    (tick s inp t).1.buttonResetWasPressed = true ∧
    (tick s inp t).1.buttonResetTimestamp = t ∧
    (tick s inp t).1.buttonResetBlocked = s.buttonResetBlocked ∧
    (tick s inp t).1.previousMillis = (tick s inp t).1.currentMillis ∧
    (tick s inp t).1.currentMillis = t ∧
    countE Event.reset (tick s inp t).2 = 0 := by
  have hP : (readInputs s inp).previousMillis ≤ t := by
    show s.previousMillis ≤ t
    omega
  have hB := updateTimers_no_wrap (readInputs s inp) t hP htU
  simp only [tick, hB]
  set sB : GateState := { readInputs s inp with currentMillis := t, previousMillis := t }
    with hsB
  obtain ⟨-, cC, pC, bC, wC, nC, tC, upC, dnC⟩ := checkBuzzer_frame sB
  set sC := checkBuzzer sB with hsC
  obtain ⟨-, c1, p1, b1, w1, n1, t1, up1, dn1, e1⟩ := checkSensorIn_frame sC
  set s1 := (checkSensorIn sC).1 with hs1
  obtain ⟨-, c2, p2, b2, w2, n2, t2, up2, dn2, e2⟩ := checkSensorOut_frame s1
  set s2 := (checkSensorOut s1).1 with hs2
  have hw2 : s2.buttonResetWasPressed = false := by
    rw [w2, w1, wC]
    exact hw
  have hn2 : s2.buttonResetNowPressed = true := by
    rw [n2, n1, nC]
    exact hr
  have hup2 : s2.buttonUpNowPressed = false := by
    rw [up2, up1, upC]
    exact hu
  have hdn2 : s2.buttonDownNowPressed = false := by
    rw [dn2, dn1, dnC]
    exact hd
  have hb2 : s2.buttonResetBlocked = s.buttonResetBlocked := by
    rw [b2, b1, bC]
    rfl
  have hc2 : s2.currentMillis = t := by rw [c2, c1, cC]
  have hp2 : s2.previousMillis = t := by rw [p2, p1, pC]
  rw [checkButtons_rising s2 hw2 hn2 hup2 hdn2]
  obtain ⟨b4, w4, n4, t4, c4, p4, e4⟩ :=
    updateDisplay_frame { s2 with buttonResetTimestamp := s2.currentMillis }
  refine ⟨?_, ?_, ?_, ?_, ?_, ?_⟩
  · show (updateDisplay { s2 with buttonResetTimestamp := s2.currentMillis }).1.buttonResetNowPressed = true
    rw [n4]
    exact hn2
  · show (updateDisplay { s2 with buttonResetTimestamp := s2.currentMillis }).1.buttonResetTimestamp = t
    rw [t4]
    exact hc2
  · show (updateDisplay { s2 with buttonResetTimestamp := s2.currentMillis }).1.buttonResetBlocked = s.buttonResetBlocked
    rw [b4]
    exact hb2
  · show (updateDisplay { s2 with buttonResetTimestamp := s2.currentMillis }).1.previousMillis =
      (updateDisplay { s2 with buttonResetTimestamp := s2.currentMillis }).1.currentMillis
    rw [p4, c4]
    show s2.previousMillis = s2.currentMillis
    rw [hc2, hp2]
  · show (updateDisplay { s2 with buttonResetTimestamp := s2.currentMillis }).1.currentMillis = t
    rw [c4]
    exact hc2
  · rw [countE_append, countE_append, countE_append, e1, e2, e4]
    rfl

/-- Counterexample to C6 as stated: from the boot state, the reset button
is held across the samples at t = 100 (rising edge) and t = 5100 — a hold
spanning exactly `BUTTON_LONG_DELAY_MS` = 5000 ms, so the claim ("held for
at least 5000 ms ⇒ reset performed exactly once") predicts one reset.
The code fires only when the hold strictly exceeds 5000 ms
(`currentMillis - buttonResetTimestamp > BUTTON_LONG_DELAY_MS`), so no
reset fires. -/
theorem claim_C6_counterexample :
    countE Event.reset (runTicks bootState holdExactly5000Trace).2 = 0 ∧
    countE Event.reset (runTicks bootState holdExactly5000Trace).2 ≠ 1 := by
  exact ⟨by decide, by decide⟩

/-- Claim C6 (amended: the hold must be observed strictly past
`BUTTON_LONG_DELAY_MS` after the rising-edge tick): over any continuous
hold of the reset button with up and down released — a rising-edge tick at
time `t` followed by held ticks with monotone clock samples — the full
reset fires exactly once if some later tick samples the clock strictly
past `t + BUTTON_LONG_DELAY_MS`, and never otherwise; while the lockout is
set `checkButtons` keeps it set and fires no reset; releasing the button
clears the lockout unconditionally; and the firing itself sets
`(visitorCount, maxVisitorCount) = (0, 20)`, sets the lockout, and emits
exactly one reset event. -/
theorem claim_C6_amended :
    (∀ (s : GateState) (inp : Inputs) (t : Nat) (l : List (Inputs × Nat)),
      inp.buttonReset = true → inp.buttonUp = false → inp.buttonDown = false →
      s.buttonResetWasPressed = false → s.buttonResetBlocked = false →
      s.previousMillis = s.currentMillis → s.currentMillis ≤ t → t < U32 →
      allHeld l = true → timesMono t l = true →
      countE Event.reset (runTicks s ((inp, t) :: l)).2 =
        (if anyPast (t + BUTTON_LONG_DELAY_MS) l = true then 1 else 0)) ∧
    (∀ s : GateState, s.buttonResetBlocked = true → s.buttonResetNowPressed = true →
      (checkButtons s).1.buttonResetBlocked = true ∧
      countE Event.reset (checkButtons s).2 = 0) ∧
    (∀ s : GateState, s.buttonResetNowPressed = false →
      (checkButtons s).1.buttonResetBlocked = false ∧
      countE Event.reset (checkButtons s).2 = 0) ∧
    (∀ s : GateState, s.buttonResetBlocked = false → s.buttonResetWasPressed = true →
      s.buttonResetNowPressed = true →
      BUTTON_LONG_DELAY_MS < usub s.currentMillis s.buttonResetTimestamp →
      (checkButtons s).1.visitorCount = 0 ∧ (checkButtons s).1.maxVisitorCount = 20 ∧
      (checkButtons s).1.buttonResetBlocked = true ∧
      countE Event.reset (checkButtons s).2 = 1) := by
  refine ⟨?_, ?_, ?_, ?_⟩
  · intro s inp t l hr hu hd hw hbl hpc hct htU hAll hmono
    obtain ⟨g1, g2, g3, g4, g5, g6⟩ := tick_rising s inp t hr hu hd hw hpc hct htU
    simp only [runTicks, countE_append, g6, Nat.zero_add]
    refine holdRun_unblocked l (tick s inp t).1 t hAll ?_ g1 (by rw [g3, hbl]) g2
      (by rw [g5]) g4
    rw [g5]
    exact hmono
  · intro s hbl hn
    obtain ⟨hc, hun, hut, hdnf, hdt, hrn, hrw, hv, hm⟩ := buttonStage1_fields s
    have hb1 : (buttonStage1 s).buttonResetBlocked = true := by
      rw [buttonStage1_pressed s hn, hbl]
    simp only [checkButtons]
    rw [if_neg (by rintro ⟨hc1, -⟩; exact hc1 (by rw [hb1]))]
    by_cases hup : (buttonStage1 s).buttonUpNowPressed = true ∧
        usub (buttonStage1 s).currentMillis (buttonStage1 s).buttonUpTimestamp >
          BUTTON_REPEAT_DELAY_MS
    · rw [if_pos hup]
      obtain ⟨hbf, hef⟩ := handleButtonUp_frame
        { buttonStage1 s with buttonResetBlocked := (buttonStage1 s).buttonResetNowPressed }
      refine ⟨?_, by rw [hef]; rfl⟩
      rw [hbf]
      show (buttonStage1 s).buttonResetNowPressed = true
      rw [hrn, hn]
    · rw [if_neg hup]
      by_cases hdw : (buttonStage1 s).buttonDownNowPressed = true ∧
          usub (buttonStage1 s).currentMillis (buttonStage1 s).buttonDownTimestamp >
            BUTTON_REPEAT_DELAY_MS
      · rw [if_pos hdw]
        obtain ⟨hbf, hef⟩ := handleButtonDown_frame
          { buttonStage1 s with buttonResetBlocked := (buttonStage1 s).buttonResetNowPressed }
        refine ⟨?_, by rw [hef]; rfl⟩
        rw [hbf]
        show (buttonStage1 s).buttonResetNowPressed = true
        rw [hrn, hn]
      · rw [if_neg hdw]
        exact ⟨hb1, rfl⟩
  · intro s hn
    obtain ⟨hc, hun, hut, hdnf, hdt, hrn, hrw, hv, hm⟩ := buttonStage1_fields s
    have hb1 : (buttonStage1 s).buttonResetBlocked = false := by
      simp [buttonStage1, hn]
    have hn1 : (buttonStage1 s).buttonResetNowPressed = false := by rw [hrn, hn]
    simp only [checkButtons]
    rw [if_neg (by rintro ⟨-, -, hc3, -⟩; rw [hn1] at hc3; exact Bool.false_ne_true hc3)]
    by_cases hup : (buttonStage1 s).buttonUpNowPressed = true ∧
        usub (buttonStage1 s).currentMillis (buttonStage1 s).buttonUpTimestamp >
          BUTTON_REPEAT_DELAY_MS
    · rw [if_pos hup]
      obtain ⟨hbf, hef⟩ := handleButtonUp_frame
        { buttonStage1 s with buttonResetBlocked := (buttonStage1 s).buttonResetNowPressed }
      refine ⟨?_, by rw [hef]; rfl⟩
      rw [hbf]
      exact hn1
    · rw [if_neg hup]
      by_cases hdw : (buttonStage1 s).buttonDownNowPressed = true ∧
          usub (buttonStage1 s).currentMillis (buttonStage1 s).buttonDownTimestamp >
            BUTTON_REPEAT_DELAY_MS
      · rw [if_pos hdw]
        obtain ⟨hbf, hef⟩ := handleButtonDown_frame
          { buttonStage1 s with buttonResetBlocked := (buttonStage1 s).buttonResetNowPressed }
        refine ⟨?_, by rw [hef]; rfl⟩
        rw [hbf]
        exact hn1
      · rw [if_neg hdw]
        exact ⟨hb1, rfl⟩
  · intro s hbl hw hn hgt
    rw [checkButtons_held_fire s hw hn hbl hgt]
    obtain ⟨v, m, b, -, -, -, -, -, e⟩ := handleReset_frame { s with buttonResetBlocked := true }
    refine ⟨v, m, by rw [b], by rw [e]; rfl⟩

/-- Witness for the amended C6: from the boot state, a rising edge at
t = 100 followed by a held tick at t = 5101 (strictly past the threshold)
fires the full reset exactly once. -/
theorem claim_C6_witness :
    countE Event.reset (runTicks bootState [(inpReset, 100), (inpReset, 5101)]).2 = 1 := by
  have h := claim_C6_amended.1 bootState inpReset 100 [(inpReset, 5101)]
    (by decide) (by decide) (by decide) (by decide) (by decide) (by decide)
    (by decide) (by decide) (by decide) (by decide)
  simpa [anyPast] using h

end SemaphoreGate
